import Mathlib

/-!
Verification development for the Go Cisco CLI simulator
(`src/Made-with-Gemini/cisco_sim-go/cisco_sim.go`).

The definitions below are a shallow embedding of the simulator's data model,
command registry, abbreviation resolver and command handlers.  Pure Go
functions become Lean functions; the in-place mutations of the simulator
struct become explicit state passing (each handler maps a state and an
argument list to a new state together with an outcome).  Go strings are
modelled as Lean `String`s; the command vocabulary of the program is ASCII,
and `strings.ToLower` is modelled on the ASCII range (on the command names
appearing in this program the two agree; see `asciiLower`).
-/

namespace CiscoSim

/-- ASCII lowercase of one character, modelling `strings.ToLower` on the
ASCII input this program compares (all registered command names are ASCII). -/
def asciiLower (c : Char) : Char :=
  if 'A' ≤ c ∧ c ≤ 'Z' then Char.ofNat (c.toNat + 32) else c

/-- ASCII lowercase of a string (model of `strings.ToLower`). -/
def lowerStr (s : String) : String :=
  ⟨s.data.map asciiLower⟩

/-- Model of Go `strings.HasPrefix s pre`. -/
def goHasPre (s pre : String) : Bool :=
  pre.data.isPrefixOf s.data

/-- ASCII decimal digit. -/
def isDigitCh (c : Char) : Bool :=
  '0' ≤ c ∧ c ≤ '9'

/-- ASCII letter, the class `(?i)[a-z]` of the Go regexps in this file. -/
def isLetterCh (c : Char) : Bool :=
  ('a' ≤ c ∧ c ≤ 'z') ∨ ('A' ≤ c ∧ c ≤ 'Z')

/-- Whitespace as Go's `unicode.IsSpace` sees it (used by `strings.Fields`):
the Unicode White_Space code points — tab through carriage return, space,
next line, no-break space, ogham space mark, the en/em spaces, line and
paragraph separator, narrow no-break space, medium mathematical space and
ideographic space. -/
def isSpaceCh (c : Char) : Bool :=
  (9 ≤ c.toNat ∧ c.toNat ≤ 13) ∨ c = ' ' ∨ c.toNat = 133 ∨ c.toNat = 160 ∨
    c.toNat = 5760 ∨ (8192 ≤ c.toNat ∧ c.toNat ≤ 8202) ∨ c.toNat = 8232 ∨
    c.toNat = 8233 ∨ c.toNat = 8239 ∨ c.toNat = 8287 ∨ c.toNat = 12288

/-- Split a character list into whitespace-separated fields, carrying the
current (reversed) token (model of `strings.Fields`). -/
def fieldsAux : List Char → List Char → List String
  | [], cur => if cur.isEmpty then [] else [String.mk cur.reverse]
  | c :: cs, cur =>
    if isSpaceCh c then
      if cur.isEmpty then fieldsAux cs []
      else String.mk cur.reverse :: fieldsAux cs []
    else fieldsAux cs (c :: cur)

/-- Model of `strings.Fields`. -/
def goFields (s : String) : List String :=
  fieldsAux s.data []

/-- Decimal value of a digit string as Go's `strconv.Atoi` returns it when the
error is ignored: the value, clamped to `MaxInt64` on range overflow. -/
def atoiClamp (ds : List Char) : Nat :=
  let v := ds.foldl (fun acc c => acc * 10 + (c.toNat - '0'.toNat)) 0
  min v (2 ^ 63 - 1)

/-!
### Model of `net.ParseIP`

`isValidIP` in the Go source is `net.ParseIP(ipStr) != nil`.  `net.ParseIP`
accepts IPv4 dotted decimal and IPv6 forms via `netip.ParseAddr`, rejecting
any address carrying a zone; since a `%` that is not a well-formed zone also
fails the parse, every input containing `%` yields nil.  The functions below
transcribe `netip.parseIPv4` / `netip.parseIPv6` as validity checkers.
-/

/-- One step state of `netip.parseIPv4`: remaining input, completed fields,
current field value, current field digit count.  True iff the whole string is
a valid dotted-decimal IPv4 literal (4 fields, each 0–255, no leading zero). -/
def v4loop : List Char → Nat → Nat → Nat → Bool
  | [], pos, _, _ => pos == 3
  | c :: rest, pos, val, digLen =>
    if isDigitCh c then
      if digLen == 1 && val == 0 then false
      else
        let val' := val * 10 + (c.toNat - '0'.toNat)
        if val' > 255 then false
        else v4loop rest pos val' (digLen + 1)
    else if c = '.' then
      if digLen == 0 then false
      else if rest.isEmpty then false
      else if pos == 3 then false
      else v4loop rest (pos + 1) 0 0
    else false

/-- Validity of an IPv4 dotted-decimal literal (model of `netip.parseIPv4`).
Note the terminal check: the final field needs no trailing dot, and a string
with fewer than three dots fails with `pos < 3`. -/
def goParseIPv4 (s : List Char) : Bool :=
  v4loop s 0 0 0

/-- Hex digit value. -/
def hexVal (c : Char) : Option Nat :=
  if '0' ≤ c ∧ c ≤ '9' then some (c.toNat - '0'.toNat)
  else if 'a' ≤ c ∧ c ≤ 'f' then some (c.toNat - 'a'.toNat + 10)
  else if 'A' ≤ c ∧ c ≤ 'F' then some (c.toNat - 'A'.toNat + 10)
  else none

/-- Consume a run of hex digits accumulating a 16-bit field value; `none`
models the immediate error when the accumulator exceeds `0xFFFF`.  Returns
(value, digit count, rest). -/
def hexFieldLoop : List Char → Nat → Nat → Option (Nat × Nat × List Char)
  | [], acc, digits => some (acc, digits, [])
  | c :: rest, acc, digits =>
    match hexVal c with
    | some v =>
      let acc' := acc * 16 + v
      if acc' > 65535 then none else hexFieldLoop rest acc' (digits + 1)
    | none => some (acc, digits, c :: rest)

/-- Final acceptance of `netip.parseIPv6` after the field loop: with `i` bytes
filled, an ellipsis must be present iff fewer than 16 bytes were parsed. -/
def v6finish (i : Nat) (ell : Option Nat) : Bool :=
  if i < 16 then ell.isSome else ell.isNone

/-- The field loop of `netip.parseIPv6` as a validity checker.  `fuel` bounds
the iteration count (`i` grows by at least two per step toward 16, so fuel 9
is never exhausted); `i` is the number of address bytes already produced,
`ell` the position of the `::` if seen.  Mirrors, in order: the mandatory
nonempty hex field, the embedded trailing IPv4 when a `.` follows the field,
the 16-bit chunk store, termination at end of input, the demand for `:` plus
more characters, and `::` handling. -/
def v6loop : Nat → Nat → Option Nat → List Char → Bool
  | 0, _, _, _ => false
  | fuel + 1, i, ell, s =>
    match hexFieldLoop s 0 0 with
    | none => false
    | some (_, digits, rest) =>
      if digits == 0 then false
      else
        match rest with
        | '.' :: _ =>
          if ell.isNone && !(i == 12) then false
          else if i + 4 > 16 then false
          else if goParseIPv4 s then v6finish (i + 4) ell else false
        | [] => v6finish (i + 2) ell
        | ':' :: [] => false
        | ':' :: ':' :: rest2 =>
          if ell.isSome then false
          else
            match rest2 with
            | [] => v6finish (i + 2) (some (i + 2))
            | _ =>
              if i + 2 < 16 then v6loop fuel (i + 2) (some (i + 2)) rest2
              else false
        | ':' :: rest2 =>
          if i + 2 < 16 then v6loop fuel (i + 2) ell rest2
          else false
        | _ => false

/-- Validity of an IPv6 literal without zone (model of `netip.parseIPv6`
restricted to validity): leading `::` handling then the field loop. -/
def goParseIPv6 (s : List Char) : Bool :=
  match s with
  | ':' :: ':' :: rest =>
    if rest.isEmpty then true else v6loop 9 0 (some 0) rest
  | _ => v6loop 9 0 none s

/-- Model of `net.ParseIP s != nil`: dispatch on the first `.` or `:` as
`netip.ParseAddr` does; any `%` (zone syntax) makes `net.ParseIP` return nil. -/
def goParseIPOk (str : String) : Bool :=
  let s := str.data
  if s.contains '%' then false
  else
    match s.find? (fun c => c == '.' || c == ':') with
    | some '.' => goParseIPv4 s
    | some ':' => goParseIPv6 s
    | _ => false

/-- `isValidIP` from the source: `net.ParseIP(ipStr) != nil`. -/
def isValidIP (ipStr : String) : Bool :=
  goParseIPOk ipStr

/-!
### Regular-expression helpers of the source

Three anchored patterns are transcribed directly: the hostname grammar
`^[a-zA-Z0-9]([a-zA-Z0-9\-]{0,61}[a-zA-Z0-9])?$`, the interface number
`^\d+/\d+$`, and the interface split `(?i)^([a-z]+?)\s*(\d+/\d+)$`; plus the
unanchored search `(?i)([a-z]+)(\d+)/(\d+)` used for sorting keys.
-/

/-- `[a-zA-Z0-9]`. -/
def isAlnumCh (c : Char) : Bool :=
  isDigitCh c || isLetterCh c

/-- Model of `regexp.MatchString` for the hostname pattern
`^[a-zA-Z0-9]([a-zA-Z0-9\-]{0,61}[a-zA-Z0-9])?$`: one alphanumeric character,
or 2–63 characters starting and ending alphanumeric with alphanumerics and
hyphens between. -/
def hostnameMatch (s : String) : Bool :=
  match s.data with
  | [] => false
  | c :: rest =>
    isAlnumCh c &&
      (rest.isEmpty ||
        (rest.length ≤ 62 &&
          (match rest.getLast? with
           | some lastc => isAlnumCh lastc
           | none => false) &&
          rest.dropLast.all (fun d => isAlnumCh d || d = '-')))

/-- Model of `regexp.MatchString` for `^\d+/\d+$`: one or more digits, a
slash, one or more digits, nothing else. -/
def numPartMatch (s : String) : Bool :=
  let d1 := s.data.takeWhile isDigitCh
  let r := s.data.dropWhile isDigitCh
  !d1.isEmpty &&
    (match r with
     | '/' :: r2 => !r2.isEmpty && r2.all isDigitCh
     | _ => false)

/-- Whitespace class `\s` of Go's regexp syntax: `[\t\n\f\r ]`. -/
def isRegexSpace (c : Char) : Bool :=
  c = ' ' ∨ c = '\t' ∨ c = '\n' ∨ c.toNat = 12 ∨ c.toNat = 13

/-- Model of `FindStringSubmatch` for the anchored interface pattern
`(?i)^([a-z]+?)\s*(\d+/\d+)$`: the whole input must be a nonempty run of
ASCII letters, optional regexp whitespace, then `\d+/\d+`.  Because the
letter group (even non-greedy) can only stop where a non-letter begins, the
captured type part is exactly the maximal leading letter run, and the number
part is the remainder after the whitespace. -/
def intfRegexSplit (s : String) : Option (String × String) :=
  let letters := s.data.takeWhile isLetterCh
  let rest := s.data.dropWhile isLetterCh
  let num := rest.dropWhile isRegexSpace
  if letters.isEmpty then none
  else if numPartMatch (String.mk num) then some (String.mk letters, String.mk num)
  else none

/-- Leftmost match of the unanchored pattern `(?i)([a-z]+)(\d+)/(\d+)` used by
`sortInterfaceKey`: scan for the first maximal ASCII letter run that is
immediately followed by digits, `/`, digits; capture the run and the two
(greedy, maximal) digit runs.  A start position inside a letter run sees the
same junction as the run's start, so only run starts need testing; the flag
records whether the previous character was a letter (i.e. the scan is inside
an already-tested run). -/
def keySearchAux : Bool → List Char → Option (List Char × List Char × List Char)
  | _, [] => none
  | prevLetter, c :: cs =>
    if isLetterCh c then
      if prevLetter then keySearchAux true cs
      else
        let run := c :: cs.takeWhile isLetterCh
        let rest := cs.dropWhile isLetterCh
        let d1 := rest.takeWhile isDigitCh
        let rest2 := rest.dropWhile isDigitCh
        match d1, rest2 with
        | _ :: _, '/' :: rest3 =>
          match rest3.takeWhile isDigitCh with
          | [] => keySearchAux true cs
          | d2 => some (run, d1, d2)
        | _, _ => keySearchAux true cs
    else keySearchAux false cs

/-- Leftmost match of `(?i)([a-z]+)(\d+)/(\d+)` in a string. -/
def keySearch (l : List Char) : Option (List Char × List Char × List Char) :=
  keySearchAux false l

/-!
### Data model

`InterfaceConfig`, `RunningConfig` and the simulator state, with the Go map
`map[string]*InterfaceConfig` modelled as a function into `Option`; handlers
that mutate an entry through its pointer become functional updates.  The
fields of the simulator not touched by the command core (history, the
readline instance, the start time) are omitted.
-/

/-- The four CLI modes (`ModeUserExec` … `ModeInterfaceConfig`). -/
inductive Mode where
  | userExec
  | privExec
  | globalConfig
  | interfaceConfig
deriving DecidableEq, Repr

/-- Per-interface state (`InterfaceConfig` in the source). -/
structure InterfaceConfig where
  IPAddress : String
  SubnetMask : String
  Status : String
  AdminStatus : String
deriving DecidableEq, Repr

/-- The running configuration (`RunningConfig`): hostname and the interface
map. -/
structure RunningConfig where
  Hostname : String
  Interfaces : String → Option InterfaceConfig

/-- Simulator state (`CiscoDeviceSimulator`), restricted to the fields the
command core reads or writes. -/
structure CiscoDeviceSimulator where
  hostname : String
  mode : Mode
  runningConfig : RunningConfig
  currentInterface : String

/-- `NewCiscoDeviceSimulator`: initial state. -/
def NewCiscoDeviceSimulator (hostname : String) : CiscoDeviceSimulator :=
  { hostname := hostname
    mode := .userExec
    runningConfig := { Hostname := hostname, Interfaces := fun _ => none }
    currentInterface := "" }

/-- The error taxonomy: the four sentinel errors the source wraps with
`fmt.Errorf("%w: …")`, and `plain` for errors built directly with
`fmt.Errorf`.  The constructor argument is the text after the sentinel
prefix (or the whole message for `plain`). -/
inductive GoError where
  | ambiguousCommand (tok : String)
  | invalidInput (tok : String)
  | incompleteCommand (msg : String)
  | badArguments (msg : String)
  | plain (msg : String)
deriving DecidableEq, Repr

/-- What one handler invocation does besides transforming the state: return
nil, return an error, call `os.Exit(0)` (`doExitQuit`), or dereference a nil
interface pointer (possible only in states unreachable from the constructor). -/
inductive CmdOutcome where
  | ok
  | err (e : GoError)
  | exited
  | panicked
deriving DecidableEq, Repr

/-- One handler step: new state and outcome. -/
abbrev HandlerResult := CiscoDeviceSimulator × CmdOutcome

/-!
### Command registry and abbreviation resolver

`registerCommands` registers `exit` first with `doExitQuit` for
UserExec/PrivExec; the later registration of `exit` with `doExitMode` for the
config modes finds the name already present, so it only merges the mode list
and keeps the first handler.  `buildModeCommandMaps` therefore lists `exit`
in all four modes, and dispatch for `exit` always reaches `doExitQuit`.
`getValidCommandsForMode` returns the mode's names plus `?`, sorted.
-/

/-- The sorted command-name list per mode (`getValidCommandsForMode`). -/
def getValidCommandsForMode : Mode → List String
  | .userExec => ["?", "enable", "exit", "quit"]
  | .privExec => ["?", "configure", "disable", "exit", "history", "show"]
  | .globalConfig => ["?", "end", "exit", "hostname", "interface", "no"]
  | .interfaceConfig => ["?", "end", "exit", "ip", "no", "shutdown"]

/-- Result of command resolution: the synthetic help action, a resolved
command name (the `CommandDef` is determined by the name via
`definedCommands`), or one of the two resolution errors. -/
inductive ResolveResult where
  | help
  | found (name : String)
  | ambiguous (tok : String)
  | invalid (tok : String)
deriving DecidableEq, Repr

/-- The candidate list of `findCommandByAbbreviation`: commands of the mode,
`?` skipped, whose lowercased name has the lowercased token as prefix. -/
def prefixMatches (m : Mode) (tok : String) : List String :=
  (getValidCommandsForMode m).filter
    (fun n => (!(n == "?")) && goHasPre (lowerStr n) (lowerStr tok))

/-- `findCommandByAbbreviation`: `?` resolves to help directly; otherwise a
unique prefix match wins, no match is `InvalidInput`, and among several
matches an exact (case-insensitive) name match wins else `AmbiguousCommand`. -/
def findCommandByAbbreviation (m : Mode) (tok : String) : ResolveResult :=
  if tok = "?" then .help
  else
    match prefixMatches m tok with
    | [n] => .found n
    | [] => .invalid tok
    | ms =>
      match ms.find? (fun n => lowerStr n == lowerStr tok) with
      | some n => .found n
      | none => .ambiguous tok

/-!
### Command handlers
-/

/-- Functional update of one interface entry (a write through the map's
pointer in the source). -/
def setIntf (sim : CiscoDeviceSimulator) (name : String) (ic : InterfaceConfig) :
    CiscoDeviceSimulator :=
  { sim with
    runningConfig :=
      { sim.runningConfig with
        Interfaces := fun k =>
          if k = name then some ic else sim.runningConfig.Interfaces k } }

/-- `doHelp`: prints the command list, no state change, nil error. -/
def doHelp (sim : CiscoDeviceSimulator) (_ : List String) : HandlerResult :=
  (sim, .ok)

/-- `doExitQuit`: terminates the process in the exec modes, errors elsewhere. -/
def doExitQuit (sim : CiscoDeviceSimulator) (_ : List String) : HandlerResult :=
  if sim.mode = .userExec ∨ sim.mode = .privExec then (sim, .exited)
  else (sim, .err (.plain "exit/quit command not valid in this mode"))

/-- `doExitMode`: leaves the current configuration mode.  Note: by the
registration order in `registerCommands` the name `exit` stays bound to
`doExitQuit`, so command dispatch never reaches this handler; the run loop
still calls it on end-of-file in the config modes. -/
def doExitMode (sim : CiscoDeviceSimulator) (_ : List String) : HandlerResult :=
  match sim.mode with
  | .globalConfig => ({ sim with mode := .privExec }, .ok)
  | .interfaceConfig => ({ sim with mode := .globalConfig, currentInterface := "" }, .ok)
  | _ => (sim, .err (.plain "exit command not valid in this mode"))

/-- `doEnd`: back to privileged exec from either config mode. -/
def doEnd (sim : CiscoDeviceSimulator) (_ : List String) : HandlerResult :=
  if sim.mode = .globalConfig ∨ sim.mode = .interfaceConfig then
    ({ sim with mode := .privExec, currentInterface := "" }, .ok)
  else (sim, .err (.plain "end command not valid in this mode"))

/-- `doEnable`: unconditionally enters privileged exec (arguments ignored). -/
def doEnable (sim : CiscoDeviceSimulator) (_ : List String) : HandlerResult :=
  ({ sim with mode := .privExec }, .ok)

/-- `doDisable`: back to user exec (arguments ignored). -/
def doDisable (sim : CiscoDeviceSimulator) (_ : List String) : HandlerResult :=
  ({ sim with mode := .userExec }, .ok)

/-- `doConfigure`: requires a first argument whose lowercase form starts with
`t`; otherwise `IncompleteCommand`. -/
def doConfigure (sim : CiscoDeviceSimulator) (args : List String) : HandlerResult :=
  match args with
  | [] => (sim, .err (.incompleteCommand "expecting \x27configure terminal\x27"))
  | a :: _ =>
    if goHasPre (lowerStr a) "t" then ({ sim with mode := .globalConfig }, .ok)
    else (sim, .err (.incompleteCommand "expecting \x27configure terminal\x27"))

/-- `doHostname`: validates against the hostname grammar, then replaces
`runningConfig.Hostname`. -/
def doHostname (sim : CiscoDeviceSimulator) (args : List String) : HandlerResult :=
  match args with
  | [] => (sim, .err (.incompleteCommand "expecting \x27hostname <name>\x27"))
  | newName :: _ =>
    if hostnameMatch newName then
      ({ sim with runningConfig := { sim.runningConfig with Hostname := newName } }, .ok)
    else (sim, .err (.plain "invalid hostname format"))

/-- `normalizeInterfaceName`: first letter of the lowered type selects the
base name, then the number part must match `^\d+/\d+$`. -/
def normalizeInterfaceName (typePart numPart : String) : Except String String :=
  let t := lowerStr typePart
  let base? : Option String :=
    if goHasPre t "g" then some "GigabitEthernet"
    else if goHasPre t "f" then some "FastEthernet"
    else if goHasPre t "e" then some "Ethernet"
    else none
  match base? with
  | none => .error ("invalid interface type: " ++ typePart)
  | some base =>
    if numPartMatch numPart then .ok (base ++ numPart)
    else .error ("invalid interface number format: " ++ numPart)

/-- `doInterface`: joins the arguments, splits type from number with the
anchored regexp (falling back to the two-argument form), normalizes the
name, creates the entry if absent (admin down, administratively down), binds
the current interface and enters interface-config mode. -/
def doInterface (sim : CiscoDeviceSimulator) (args : List String) : HandlerResult :=
  match args with
  | [] =>
    (sim, .err (.incompleteCommand
      "expecting \x27interface <type><number>\x27 or \x27interface <type> <number>\x27"))
  | _ =>
    let intfInput := String.join args
    let split? : Option (String × String) :=
      match intfRegexSplit intfInput with
      | some p => some p
      | none =>
        match args with
        | [a, b] => some (a, b)
        | _ => none
    match split? with
    | none =>
      (sim, .err (.plain ("invalid interface format: " ++ intfInput ++
        ". Expecting e.g., \x27g0/0\x27, \x27FastEthernet0/1\x27")))
    | some (tp, np) =>
      match normalizeInterfaceName tp np with
      | .error e => (sim, .err (.plain e))
      | .ok intfName =>
        let sim' :=
          match sim.runningConfig.Interfaces intfName with
          | some _ => sim
          | none =>
            setIntf sim intfName
              { IPAddress := "", SubnetMask := ""
                Status := "administratively down", AdminStatus := "down" }
        ({ sim' with currentInterface := intfName, mode := .interfaceConfig }, .ok)

/-- `doIP` (`ip address <ip> <mask>`): needs a bound current interface, an
`a…` first argument, exactly three arguments, and two operands accepted by
`isValidIP`; then sets address and mask and raises the operational status
when the admin status is up. -/
def doIP (sim : CiscoDeviceSimulator) (args : List String) : HandlerResult :=
  if sim.currentInterface = "" then
    (sim, .err (.plain "command must be run in interface configuration mode"))
  else
    match args with
    | [] => (sim, .err (.incompleteCommand "expecting \x27ip address <ip> <subnet>\x27"))
    | a :: rest =>
      if !goHasPre (lowerStr a) "a" then
        (sim, .err (.incompleteCommand "expecting \x27ip address <ip> <subnet>\x27"))
      else
        match rest with
        | [ipAddr, subnetMask] =>
          if !isValidIP ipAddr then
            (sim, .err (.plain ("invalid IP address format: " ++ ipAddr)))
          else if !isValidIP subnetMask then
            (sim, .err (.plain ("invalid subnet mask format: " ++ subnetMask)))
          else
            match sim.runningConfig.Interfaces sim.currentInterface with
            | none => (sim, .panicked)
            | some ic =>
              (setIntf sim sim.currentInterface
                { ic with
                  IPAddress := ipAddr
                  SubnetMask := subnetMask
                  Status := if ic.AdminStatus = "up" then "up" else ic.Status }, .ok)
        | _ => (sim, .err (.badArguments "expecting \x27ip address <ip> <subnet>\x27"))

/-- `doShutdown`: no arguments allowed; sets operational status to
administratively down and admin status to down. -/
def doShutdown (sim : CiscoDeviceSimulator) (args : List String) : HandlerResult :=
  if sim.currentInterface = "" then
    (sim, .err (.plain "command must be run in interface configuration mode"))
  else if args.length > 0 then
    (sim, .err (.badArguments "\x27shutdown\x27 takes no arguments"))
  else
    match sim.runningConfig.Interfaces sim.currentInterface with
    | none => (sim, .panicked)
    | some ic =>
      (setIntf sim sim.currentInterface
        { ic with Status := "administratively down", AdminStatus := "down" }, .ok)

/-- `noShutdown` (`no shutdown`): admin up; operational status up iff an IP
address is set, else down. -/
def noShutdown (sim : CiscoDeviceSimulator) (args : List String) : HandlerResult :=
  if sim.currentInterface = "" then (sim, .err (.plain "not in interface mode"))
  else if args.length > 0 then
    (sim, .err (.badArguments "\x27no shutdown\x27 takes no arguments"))
  else
    match sim.runningConfig.Interfaces sim.currentInterface with
    | none => (sim, .panicked)
    | some ic =>
      (setIntf sim sim.currentInterface
        { ic with
          AdminStatus := "up"
          Status := if ic.IPAddress ≠ "" then "up" else "down" }, .ok)

/-- `noIPAddress` (`no ip address`): clears address and mask; if admin status
is up the operational status drops to down, otherwise it is left as is. -/
def noIPAddress (sim : CiscoDeviceSimulator) (args : List String) : HandlerResult :=
  if sim.currentInterface = "" then (sim, .err (.plain "not in interface mode"))
  else if args.length > 0 then
    (sim, .err (.badArguments "\x27no ip address\x27 takes no further arguments"))
  else
    match sim.runningConfig.Interfaces sim.currentInterface with
    | none => (sim, .panicked)
    | some ic =>
      (setIntf sim sim.currentInterface
        { ic with
          IPAddress := ""
          SubnetMask := ""
          Status := if ic.AdminStatus = "up" then "down" else ic.Status }, .ok)

/-- The switch body of `doNo` once the sub-command is resolved. -/
def execNoSub (sim : CiscoDeviceSimulator) (c : String) (subArgs : List String) :
    HandlerResult :=
  match sim.mode with
  | .interfaceConfig =>
    if c = "shutdown" then noShutdown sim subArgs
    else if c = "ip" then
      match subArgs with
      | [] => (sim, .err (.incompleteCommand "expecting \x27no ip address\x27"))
      | a :: rest =>
        if goHasPre (lowerStr a) "a" then noIPAddress sim rest
        else (sim, .err (.incompleteCommand "expecting \x27no ip address\x27"))
    else (sim, .err (.plain ("internal error: unhandled \x27no\x27 subcommand \x27" ++ c ++ "\x27 in IF mode")))
  | .globalConfig =>
    if c = "hostname" then
      (sim, .err (.plain "cannot \x27no hostname\x27. Set a new one instead"))
    else if c = "interface" then
      (sim, .err (.plain "use \x27default interface <name>\x27 to reset an interface (not implemented)"))
    else (sim, .err (.plain ("internal error: unhandled \x27no\x27 subcommand \x27" ++ c ++ "\x27 in Global mode")))
  | _ => (sim, .err (.plain "internal error: \x27no\x27 command reached unexpected state"))

/-- `doNo`: resolves the negated target by the same prefix/exact-match rules
over the mode-specific candidate set, then dispatches. -/
def doNo (sim : CiscoDeviceSimulator) (args : List String) : HandlerResult :=
  match args with
  | [] => (sim, .err (.incompleteCommand "\x27no\x27 command"))
  | noSub :: subArgs =>
    if sim.mode = .interfaceConfig ∨ sim.mode = .globalConfig then
      let possible : List String :=
        if sim.mode = .interfaceConfig then ["shutdown", "ip"]
        else ["hostname", "interface"]
      let ms := possible.filter (fun c => goHasPre (lowerStr c) (lowerStr noSub))
      match ms with
      | [c] => execNoSub sim c subArgs
      | [] => (sim, .err (.invalidInput ("no " ++ noSub)))
      | _ =>
        match ms.find? (fun c => lowerStr c == lowerStr noSub) with
        | some c => execNoSub sim c subArgs
        | none => (sim, .err (.ambiguousCommand ("no " ++ noSub)))
    else (sim, .err (.plain "\x27no\x27 command not applicable in this mode"))

/-- `showVersion`: read-only; rejects arguments. -/
def showVersion (sim : CiscoDeviceSimulator) (args : List String) : HandlerResult :=
  if args.length > 0 then
    (sim, .err (.badArguments "\x27show version\x27 takes no arguments"))
  else (sim, .ok)

/-- `showRunningConfig`: read-only; rejects arguments. -/
def showRunningConfig (sim : CiscoDeviceSimulator) (args : List String) : HandlerResult :=
  if args.length > 0 then
    (sim, .err (.badArguments "\x27show running-config\x27 takes no arguments"))
  else (sim, .ok)

/-- `showIPInterfaceBrief`: read-only; rejects arguments. -/
def showIPInterfaceBrief (sim : CiscoDeviceSimulator) (args : List String) : HandlerResult :=
  if args.length > 0 then
    (sim, .err (.badArguments "extra arguments after \x27show ip interface brief\x27"))
  else (sim, .ok)

/-- `showHistoryCmd`: read-only; rejects arguments. -/
def showHistoryCmd (sim : CiscoDeviceSimulator) (args : List String) : HandlerResult :=
  if args.length > 0 then
    (sim, .err (.badArguments "\x27history\x27 takes no arguments"))
  else (sim, .ok)

/-- The `show` sub-command vocabulary. -/
def showOptions : List String := ["version", "running-config", "run", "ip", "history"]

/-- The switch body of `doShow` once the sub-command is resolved. -/
def execShowSub (sim : CiscoDeviceSimulator) (c : String) (subArgs : List String) :
    HandlerResult :=
  if c = "version" then showVersion sim subArgs
  else if c = "running-config" then showRunningConfig sim subArgs
  else if c = "ip" then
    if subArgs.length < 1 || !goHasPre (lowerStr (subArgs.headD "")) "i" then
      (sim, .err (.incompleteCommand "expecting \x27show ip interface brief\x27"))
    else if subArgs.length < 2 || !goHasPre (lowerStr (subArgs.getD 1 "")) "b" then
      (sim, .err (.incompleteCommand "expecting \x27show ip interface brief\x27"))
    else if subArgs.length > 2 then
      (sim, .err (.badArguments "extra arguments after \x27show ip interface brief\x27"))
    else showIPInterfaceBrief sim (subArgs.drop 2)
  else if c = "history" then showHistoryCmd sim subArgs
  else (sim, .err (.plain ("internal error: unhandled show command \x27" ++ c ++ "\x27")))

/-- `doShow`: resolves the sub-command by prefix over `showOptions`; among
several matches the token `run` is special-cased to `running-config`, then an
exact match wins, otherwise the command is ambiguous. -/
def doShow (sim : CiscoDeviceSimulator) (args : List String) : HandlerResult :=
  match args with
  | [] => (sim, .err (.incompleteCommand "expecting \x27show <subcommand>\x27"))
  | sub :: subArgs =>
    let ms := showOptions.filter (fun o => goHasPre o (lowerStr sub))
    match ms with
    | [o] => execShowSub sim o subArgs
    | [] => (sim, .err (.invalidInput ("show " ++ sub)))
    | _ =>
      if lowerStr sub == "run" && ms.contains "running-config" then
        execShowSub sim "running-config" subArgs
      else
        match ms.find? (fun o => lowerStr o == lowerStr sub) with
        | some o => execShowSub sim o subArgs
        | none => (sim, .err (.ambiguousCommand ("show " ++ sub)))

/-- Handler dispatch by resolved command name, following `definedCommands` as
`registerCommands` builds it.  `exit` is bound to `doExitQuit`: the second
registration of `exit` (with `doExitMode`, for the config modes) only merges
the mode list into the existing entry and leaves the first handler in place. -/
def dispatchCommand (sim : CiscoDeviceSimulator) (name : String) (args : List String) :
    HandlerResult :=
  match name with
  | "enable" => doEnable sim args
  | "exit" => doExitQuit sim args
  | "quit" => doExitQuit sim args
  | "disable" => doDisable sim args
  | "configure" => doConfigure sim args
  | "show" => doShow sim args
  | "history" => showHistoryCmd sim args
  | "end" => doEnd sim args
  | "hostname" => doHostname sim args
  | "interface" => doInterface sim args
  | "no" => doNo sim args
  | "ip" => doIP sim args
  | "shutdown" => doShutdown sim args
  | _ => (sim, .err (.plain ("command lookup failed for \x27" ++ name ++ "\x27 (internal error)")))

/-- `processCommand`: tokenize the line, resolve the first token in the
current mode, dispatch the bound handler on the remaining tokens. -/
def processCommand (sim : CiscoDeviceSimulator) (line : String) : HandlerResult :=
  match goFields line with
  | [] => (sim, .ok)
  | tok :: args =>
    match findCommandByAbbreviation sim.mode tok with
    | .help => doHelp sim args
    | .found name => dispatchCommand sim name args
    | .ambiguous t => (sim, .err (.ambiguousCommand t))
    | .invalid t => (sim, .err (.invalidInput t))

/-!
### Display ordering of interfaces

`showRunningConfig` and `showIPInterfaceBrief` both collect the interface
names and sort them with `sort.SliceStable` under the same comparator built
from `sortInterfaceKey`.  A stable sort under a `less` comparator is the
unique permutation that is non-decreasing for `a ≼ b := !less(b, a)` and
keeps the input order of `≼`-ties, which is exactly insertion sort under
`≼`; the two order functions below are that model.
-/

/-- `sortInterfaceKey`: leftmost `(?i)([a-z]+)(\d+)/(\d+)` match gives
(type weight, slot, port); no match gives the fallback `(999, 0, 0)`.  The
weight chain of the source (`f…` 1, `g…` 2, `t…` 3, default 99) tests
`strings.HasPrefix` on the lowered type; the three prefixes are mutually
exclusive, so the sequential `if`s behave as a chain. -/
def sortInterfaceKey (intfName : String) : Nat × Nat × Nat :=
  match keySearch intfName.data with
  | none => (999, 0, 0)
  | some (run, d1, d2) =>
    let typePrefixLow := String.mk (run.map asciiLower)
    let slot := atoiClamp d1
    let port := atoiClamp d2
    let typeWeight : Nat :=
      if goHasPre typePrefixLow "f" then 1
      else if goHasPre typePrefixLow "g" then 2
      else if goHasPre typePrefixLow "t" then 3
      else 99
    (typeWeight, slot, port)

/-- The `less` closure passed to `sort.SliceStable` in `showRunningConfig`
and `showIPInterfaceBrief`. -/
def goIntfLess (a b : String) : Bool :=
  let ka := sortInterfaceKey a
  let kb := sortInterfaceKey b
  if ka.1 ≠ kb.1 then decide (ka.1 < kb.1)
  else if ka.2.1 ≠ kb.2.1 then decide (ka.2.1 < kb.2.1)
  else decide (ka.2.2 < kb.2.2)

/-- The non-strict order a stable sort under `goIntfLess` realizes. -/
def goIntfLe (a b : String) : Prop :=
  goIntfLess b a = false

instance : DecidableRel goIntfLe := fun a b => by
  unfold goIntfLe; infer_instance

/-- Iteration order of `showRunningConfig` over the interfaces. -/
def showRunningConfigOrder (names : List String) : List String :=
  List.insertionSort goIntfLe names

/-- Iteration order of `showIPInterfaceBrief` over the interfaces. -/
def showIPInterfaceBriefOrder (names : List String) : List String :=
  List.insertionSort goIntfLe names

/-- Lexicographic order on (type weight, slot, port) keys, the order the
specification describes. -/
def keyLexLe (k1 k2 : Nat × Nat × Nat) : Prop :=
  k1.1 < k2.1 ∨ (k1.1 = k2.1 ∧
    (k1.2.1 < k2.2.1 ∨ (k1.2.1 = k2.2.1 ∧ k1.2.2 ≤ k2.2.2)))

/-!
### The interface-state invariant
-/

/-- The `InterfaceState` invariant of the specification: admin down forces
administratively-down; admin up forces up or down according to whether an IP
address is assigned. -/
def intfInvariant (ic : InterfaceConfig) : Prop :=
  (ic.AdminStatus = "down" → ic.Status = "administratively down") ∧
  (ic.AdminStatus = "up" → ic.IPAddress ≠ "" → ic.Status = "up") ∧
  (ic.AdminStatus = "up" → ic.IPAddress = "" → ic.Status = "down")

/-- Every interface of the configuration satisfies `intfInvariant`. -/
def simInvariant (sim : CiscoDeviceSimulator) : Prop :=
  ∀ n ic, sim.runningConfig.Interfaces n = some ic → intfInvariant ic

/-!
### Concrete session states used by the theorems
-/

/-- The state at startup (`NewCiscoDeviceSimulator("Router")` in `main`). -/
def simRouter : CiscoDeviceSimulator := NewCiscoDeviceSimulator "Router"

/-- After `enable`: privileged exec. -/
def simPriv : CiscoDeviceSimulator := (processCommand simRouter "enable").1

/-- After `enable`, `configure terminal`: global config. -/
def simGlobal : CiscoDeviceSimulator := (processCommand simPriv "configure terminal").1

/-- After `enable`, `configure terminal`, `interface g0/0`: interface config
on GigabitEthernet0/0. -/
def simIf : CiscoDeviceSimulator := (processCommand simGlobal "interface g0/0").1

/-!
### Theorems for the claims
-/

/-- C3 (code bug): executing the resolved `exit` in GlobalConfig does not
move the session to PrivilegedExec.  `registerCommands` registers `exit`
first with `doExitQuit`; the later registration with `doExitMode` only merges
modes, so in GlobalConfig the resolved `exit` dispatches `doExitQuit`, which
returns the error `exit/quit command not valid in this mode` and leaves the
mode (and, in InterfaceConfig, the current-interface binding) unchanged,
while the intended handler `doExitMode` would perform exactly the claimed
transition. -/
theorem config_exit_dispatch_bug :
    simGlobal.mode = Mode.globalConfig ∧
    processCommand simGlobal "exit" =
      (simGlobal, CmdOutcome.err (GoError.plain "exit/quit command not valid in this mode")) ∧
    simIf.mode = Mode.interfaceConfig ∧
    processCommand simIf "exit" =
      (simIf, CmdOutcome.err (GoError.plain "exit/quit command not valid in this mode")) ∧
    doExitMode simGlobal [] = ({ simGlobal with mode := Mode.privExec }, CmdOutcome.ok) ∧
    doExitMode simIf [] =
      ({ simIf with mode := Mode.globalConfig, currentInterface := "" }, CmdOutcome.ok) :=
  ⟨by decide, rfl, by decide, rfl, rfl, rfl⟩

/-- C7 (code bug): with a bound current interface, `ip address ::1 ::2`
succeeds and stores the operands, although `::1` and `::2` are not IPv4
dotted-decimal literals — `isValidIP` is `net.ParseIP != nil`, which also
accepts IPv6 forms. -/
theorem ip_address_accepts_ipv6_bug :
    goParseIPv4 "::1".data = false ∧
    goParseIPv4 "::2".data = false ∧
    isValidIP "::1" = true ∧
    isValidIP "::2" = true ∧
    simIf.currentInterface = "GigabitEthernet0/0" ∧
    (processCommand simIf "ip address ::1 ::2").2 = CmdOutcome.ok ∧
    (processCommand simIf "ip address ::1 ::2").1.runningConfig.Interfaces
        "GigabitEthernet0/0" =
      some { IPAddress := "::1", SubnetMask := "::2"
             Status := "administratively down", AdminStatus := "down" } := by
  refine ⟨by decide, by decide, by decide, by decide, by decide, by decide, by decide⟩

/-- C8: the `interface` arguments `g0/0`, `gi0/0` and `GigabitEthernet0/0`
all normalize to the canonical name `GigabitEthernet0/0`, bind it as the
current interface, and produce identical states (hence the identical entry of
the interfaces map). -/
theorem interface_name_normalization_canonical :
    normalizeInterfaceName "g" "0/0" = Except.ok "GigabitEthernet0/0" ∧
    normalizeInterfaceName "gi" "0/0" = Except.ok "GigabitEthernet0/0" ∧
    normalizeInterfaceName "GigabitEthernet" "0/0" = Except.ok "GigabitEthernet0/0" ∧
    (processCommand simGlobal "interface g0/0").1.currentInterface = "GigabitEthernet0/0" ∧
    (processCommand simGlobal "interface gi0/0").1.currentInterface = "GigabitEthernet0/0" ∧
    (processCommand simGlobal "interface GigabitEthernet0/0").1.currentInterface =
      "GigabitEthernet0/0" ∧
    (processCommand simGlobal "interface g0/0").1 =
      (processCommand simGlobal "interface gi0/0").1 ∧
    (processCommand simGlobal "interface gi0/0").1 =
      (processCommand simGlobal "interface GigabitEthernet0/0").1 ∧
    (processCommand simGlobal "interface g0/0").1.runningConfig.Interfaces
        "GigabitEthernet0/0" =
      some { IPAddress := "", SubnetMask := ""
             Status := "administratively down", AdminStatus := "down" } :=
  ⟨rfl, rfl, rfl, by decide, by decide, by decide, rfl, rfl, by decide⟩

/-- C10: in the `show` sub-command resolver the candidate set holds both
`run` and `running-config`; the exact token `run` routes to the
running-config renderer (witnessed by that renderer's argument error), while
the strictly shorter prefixes `ru` and `r` are ambiguous since they equal
neither candidate. -/
theorem show_run_special_case_spec :
    showOptions.contains "run" = true ∧
    showOptions.contains "running-config" = true ∧
    doShow simPriv ["run"] = (simPriv, CmdOutcome.ok) ∧
    doShow simPriv ["run", "x"] =
      (simPriv, CmdOutcome.err
        (GoError.badArguments "\x27show running-config\x27 takes no arguments")) ∧
    lowerStr "ru" ≠ lowerStr "run" ∧
    lowerStr "ru" ≠ lowerStr "running-config" ∧
    doShow simPriv ["ru"] = (simPriv, CmdOutcome.err (GoError.ambiguousCommand "show ru")) ∧
    doShow simPriv ["r"] = (simPriv, CmdOutcome.err (GoError.ambiguousCommand "show r")) ∧
    processCommand simPriv "show run" = (simPriv, CmdOutcome.ok) :=
  ⟨by decide, by decide, rfl, rfl, by decide, by decide, rfl, rfl, rfl⟩

/-- C1 counterexample: the literal token `?` has no registered command name
as a case-insensitive prefix extension, yet resolution returns the synthetic
help action, not `InvalidInput`. -/
theorem question_token_resolves_to_help_not_invalid :
    prefixMatches Mode.userExec "?" = [] ∧
    findCommandByAbbreviation Mode.userExec "?" = ResolveResult.help ∧
    findCommandByAbbreviation Mode.userExec "?" ≠ ResolveResult.invalid "?" := by
  decide

/-- C5 counterexample: `enable` takes zero arguments, yet invoked with one
argument it succeeds (entering privileged exec) instead of failing with a
"takes no arguments" error. -/
theorem enable_with_args_succeeds_cex :
    (processCommand simRouter "enable extra").2 = CmdOutcome.ok ∧
    (processCommand simRouter "enable extra").1.mode = Mode.privExec := by
  decide

/-- C6 counterexample: `tx` is not a case-insensitive prefix of `terminal`,
yet `configure tx` succeeds and enters GlobalConfig — `doConfigure` only
tests that the first argument starts with `t`. -/
theorem configure_accepts_non_terminal_prefix_cex :
    goHasPre "terminal" (lowerStr "tx") = false ∧
    doConfigure simPriv ["tx"] = ({ simPriv with mode := Mode.globalConfig }, CmdOutcome.ok) ∧
    (processCommand simPriv "configure tx").2 = CmdOutcome.ok ∧
    (processCommand simPriv "configure tx").1.mode = Mode.globalConfig :=
  ⟨by decide, rfl, by decide, by decide⟩

/-- C6 (amended): `configure` succeeds — entering GlobalConfig — exactly when
a first argument is present whose lowercase form starts with the letter `t`;
when the argument is absent or does not start with `t`, it fails with
`IncompleteCommand` and the state is unchanged. -/
theorem configure_first_letter_spec (sim : CiscoDeviceSimulator) (args : List String) :
    ((args = [] ∨ goHasPre (lowerStr (args.headD "")) "t" = false) →
      doConfigure sim args =
        (sim, CmdOutcome.err (GoError.incompleteCommand "expecting \x27configure terminal\x27"))) ∧
    (∀ a rest, args = a :: rest → goHasPre (lowerStr a) "t" = true →
      doConfigure sim args = ({ sim with mode := Mode.globalConfig }, CmdOutcome.ok)) ∧
    ((doConfigure sim args).2 = CmdOutcome.ok ↔
      ∃ a rest, args = a :: rest ∧ goHasPre (lowerStr a) "t" = true) := by
  refine ⟨?_, ?_, ?_⟩
  · intro h
    match args, h with
    | [], _ => rfl
    | a :: rest, h =>
      have hf : goHasPre (lowerStr a) "t" = false := by
        rcases h with h | h
        · exact absurd h (by simp)
        · simpa using h
      simp [doConfigure, hf]
  · intro a rest he ht
    subst he
    simp [doConfigure, ht]
  · match args with
    | [] => simp [doConfigure]
    | a :: rest =>
      by_cases ht : goHasPre (lowerStr a) "t" = true
      · simp [doConfigure, ht]
      · simp only [Bool.not_eq_true] at ht
        simp [doConfigure, ht]

/-- C5 (amended): of the zero-argument handlers, `shutdown`, `no shutdown`,
`show version` and `history` fail with a "takes no arguments" `BadArguments`
error when invoked with arguments (the two interface commands once a current
interface is bound), leaving the state unchanged; `enable`, `disable`, `end`
and the two exit handlers ignore their arguments entirely. -/
theorem zero_arg_handlers_spec :
    (∀ sim args, sim.currentInterface ≠ "" → args ≠ [] →
      doShutdown sim args =
        (sim, CmdOutcome.err (GoError.badArguments "\x27shutdown\x27 takes no arguments"))) ∧
    (∀ sim args, sim.currentInterface ≠ "" → args ≠ [] →
      noShutdown sim args =
        (sim, CmdOutcome.err (GoError.badArguments "\x27no shutdown\x27 takes no arguments"))) ∧
    (∀ sim args, args ≠ [] →
      showVersion sim args =
        (sim, CmdOutcome.err (GoError.badArguments "\x27show version\x27 takes no arguments"))) ∧
    (∀ sim args, args ≠ [] →
      showHistoryCmd sim args =
        (sim, CmdOutcome.err (GoError.badArguments "\x27history\x27 takes no arguments"))) ∧
    (∀ sim args, doEnable sim args = ({ sim with mode := Mode.privExec }, CmdOutcome.ok)) ∧
    (∀ sim args, doDisable sim args = ({ sim with mode := Mode.userExec }, CmdOutcome.ok)) ∧
    (∀ sim args, doEnd sim args = doEnd sim []) ∧
    (∀ sim args, doExitQuit sim args = doExitQuit sim []) ∧
    (∀ sim args, doExitMode sim args = doExitMode sim []) := by
  refine ⟨?_, ?_, ?_, ?_, fun _ _ => rfl, fun _ _ => rfl,
    fun _ _ => rfl, fun _ _ => rfl, fun _ _ => rfl⟩
  · intro sim args hcur hargs
    have hl : 0 < args.length := List.length_pos.mpr hargs
    simp [doShutdown, hcur, hl]
  · intro sim args hcur hargs
    have hl : 0 < args.length := List.length_pos.mpr hargs
    simp [noShutdown, hcur, hl]
  · intro sim args hargs
    have hl : 0 < args.length := List.length_pos.mpr hargs
    simp [showVersion, hl]
  · intro sim args hargs
    have hl : 0 < args.length := List.length_pos.mpr hargs
    simp [showHistoryCmd, hl]

/-- No two command names of any mode agree up to ASCII case (they are all
distinct lowercase words), so an exact match in the resolver is unique. -/
theorem valid_commands_lower_inj (m : Mode) :
    ∀ a ∈ getValidCommandsForMode m, ∀ b ∈ getValidCommandsForMode m,
      lowerStr a = lowerStr b → a = b := by
  cases m <;> decide

/-- A string is a `goHasPre`-prefix of itself. -/
theorem goHasPre_self (s : String) : goHasPre s s = true := by
  simp [goHasPre, List.isPrefixOf_iff_prefix]

/-- C1 (amended): for every token other than the literal `?` (which resolves
to the synthetic help action) and every mode: no case-insensitive prefix
match yields `InvalidInput`; a unique match resolves to it; several matches
with no exact case-insensitive name match yield `AmbiguousCommand`; and a
token equal (case-insensitively) to a registered command name of the mode
always resolves to that command, whatever else shares the prefix. -/
theorem resolver_prefix_exact_spec (m : Mode) (tok : String) (hq : tok ≠ "?") :
    (prefixMatches m tok = [] →
      findCommandByAbbreviation m tok = ResolveResult.invalid tok) ∧
    (∀ n, prefixMatches m tok = [n] →
      findCommandByAbbreviation m tok = ResolveResult.found n) ∧
    (∀ n ns, prefixMatches m tok = n :: ns → ns ≠ [] →
      (∀ c ∈ prefixMatches m tok, lowerStr c ≠ lowerStr tok) →
      findCommandByAbbreviation m tok = ResolveResult.ambiguous tok) ∧
    (∀ c ∈ getValidCommandsForMode m, c ≠ "?" → lowerStr tok = lowerStr c →
      findCommandByAbbreviation m tok = ResolveResult.found c) := by
  refine ⟨?_, ?_, ?_, ?_⟩
  · intro h
    simp only [findCommandByAbbreviation, if_neg hq, h]
  · intro n h
    simp only [findCommandByAbbreviation, if_neg hq, h]
  · intro n ns h hne hnoex
    match ns, hne with
    | n2 :: rest, _ =>
      have hfind : (n :: n2 :: rest).find? (fun c => lowerStr c == lowerStr tok) = none := by
        rw [List.find?_eq_none]
        intro x hx
        simpa using hnoex x (h ▸ hx)
      simp only [findCommandByAbbreviation, if_neg hq, h, hfind]
  · intro c hc hcq hlow
    have hmem : c ∈ prefixMatches m tok := by
      refine List.mem_filter.mpr ⟨hc, ?_⟩
      have : goHasPre (lowerStr c) (lowerStr tok) = true := by
        rw [hlow]; exact goHasPre_self _
      simp [hcq, this]
    match h : prefixMatches m tok, hmem with
    | [n], hmem =>
      have : c = n := by simpa using hmem
      subst this
      simp only [findCommandByAbbreviation, if_neg hq, h]
    | n :: n2 :: rest, hmem =>
      have hsome : ((n :: n2 :: rest).find? (fun c => lowerStr c == lowerStr tok)).isSome := by
        rw [List.find?_isSome]
        exact ⟨c, hmem, by simp [hlow]⟩
      obtain ⟨d, hd⟩ := Option.isSome_iff_exists.mp hsome
      have hdmem : d ∈ prefixMatches m tok := by
        rw [h]; exact List.mem_of_find?_eq_some hd
      have hdp : lowerStr d = lowerStr tok := by
        have := List.find?_some hd
        simpa using this
      have hdc : d = c :=
        valid_commands_lower_inj m d (List.mem_filter.mp hdmem).1
          c hc (by rw [hdp, hlow])
      subst hdc
      simp only [findCommandByAbbreviation, if_neg hq, h, hd]

/-- Witness for `resolver_prefix_exact_spec` at concrete inputs: `sh` in
PrivilegedExec resolves uniquely to `show`, and the full name `exit` in
GlobalConfig resolves to `exit` although `e` and `ex` would be shared with
`end`. -/
theorem resolver_prefix_exact_spec_w :
    findCommandByAbbreviation Mode.privExec "sh" = ResolveResult.found "show" ∧
    findCommandByAbbreviation Mode.globalConfig "exit" = ResolveResult.found "exit" :=
  ⟨(resolver_prefix_exact_spec Mode.privExec "sh" (by decide)).2.1 "show" (by decide),
   (resolver_prefix_exact_spec Mode.globalConfig "exit" (by decide)).2.2.2 "exit"
     (by decide) (by decide) (by decide)⟩

/-- A handler leaves the state untouched unless it reports success: every
error, exit and panic branch returns the incoming state. -/
def FrameOK (f : CiscoDeviceSimulator → List String → HandlerResult) : Prop :=
  ∀ sim args, (f sim args).2 = CmdOutcome.ok ∨ (f sim args).1 = sim

theorem doHelp_frame : FrameOK doHelp := fun _ _ => Or.inl rfl

theorem doExitQuit_frame : FrameOK doExitQuit := by
  intro sim args
  unfold doExitQuit
  split <;> simp

theorem doExitMode_frame : FrameOK doExitMode := by
  intro sim args
  unfold doExitMode
  split <;> simp

theorem doEnd_frame : FrameOK doEnd := by
  intro sim args
  unfold doEnd
  split <;> simp

theorem doEnable_frame : FrameOK doEnable := fun _ _ => Or.inl rfl

theorem doDisable_frame : FrameOK doDisable := fun _ _ => Or.inl rfl

theorem doConfigure_frame : FrameOK doConfigure := by
  intro sim args
  unfold doConfigure
  repeat' split
  all_goals simp

theorem doHostname_frame : FrameOK doHostname := by
  intro sim args
  unfold doHostname
  repeat' split
  all_goals simp

theorem doInterface_frame : FrameOK doInterface := by
  intro sim args
  unfold doInterface
  repeat' split
  all_goals try simp
  all_goals (repeat' split)
  all_goals simp

theorem doIP_frame : FrameOK doIP := by
  intro sim args
  unfold doIP
  repeat' split
  all_goals simp

theorem doShutdown_frame : FrameOK doShutdown := by
  intro sim args
  unfold doShutdown
  repeat' split
  all_goals simp

theorem noShutdown_frame : FrameOK noShutdown := by
  intro sim args
  unfold noShutdown
  repeat' split
  all_goals simp

theorem noIPAddress_frame : FrameOK noIPAddress := by
  intro sim args
  unfold noIPAddress
  repeat' split
  all_goals simp

theorem execNoSub_frame (sim : CiscoDeviceSimulator) (c : String) (subArgs : List String) :
    (execNoSub sim c subArgs).2 = CmdOutcome.ok ∨ (execNoSub sim c subArgs).1 = sim := by
  unfold execNoSub
  repeat' split
  all_goals first
    | exact noShutdown_frame _ _
    | exact noIPAddress_frame _ _
    | simp

theorem doNo_frame : FrameOK doNo := by
  intro sim args
  unfold doNo
  repeat' split
  all_goals try (first | exact execNoSub_frame _ _ _ | simp)
  all_goals (repeat' split)
  all_goals first
    | exact execNoSub_frame _ _ _
    | simp

theorem showVersion_frame : FrameOK showVersion := by
  intro sim args
  unfold showVersion
  split <;> simp

theorem showRunningConfig_frame : FrameOK showRunningConfig := by
  intro sim args
  unfold showRunningConfig
  split <;> simp

theorem showIPInterfaceBrief_frame : FrameOK showIPInterfaceBrief := by
  intro sim args
  unfold showIPInterfaceBrief
  split <;> simp

theorem showHistoryCmd_frame : FrameOK showHistoryCmd := by
  intro sim args
  unfold showHistoryCmd
  split <;> simp

theorem execShowSub_frame (sim : CiscoDeviceSimulator) (c : String) (subArgs : List String) :
    (execShowSub sim c subArgs).2 = CmdOutcome.ok ∨ (execShowSub sim c subArgs).1 = sim := by
  unfold execShowSub
  repeat' split
  all_goals first
    | exact showVersion_frame _ _
    | exact showRunningConfig_frame _ _
    | exact showIPInterfaceBrief_frame _ _
    | exact showHistoryCmd_frame _ _
    | simp

theorem doShow_frame : FrameOK doShow := by
  intro sim args
  unfold doShow
  repeat' split
  all_goals try (first | exact execShowSub_frame _ _ _ | simp)
  all_goals (repeat' split)
  all_goals first
    | exact execShowSub_frame _ _ _
    | simp

theorem dispatchCommand_frame (sim : CiscoDeviceSimulator) (name : String)
    (args : List String) :
    (dispatchCommand sim name args).2 = CmdOutcome.ok ∨
      (dispatchCommand sim name args).1 = sim := by
  unfold dispatchCommand
  repeat' split
  all_goals first
    | exact doEnable_frame _ _
    | exact doExitQuit_frame _ _
    | exact doDisable_frame _ _
    | exact doConfigure_frame _ _
    | exact doShow_frame _ _
    | exact showHistoryCmd_frame _ _
    | exact doEnd_frame _ _
    | exact doHostname_frame _ _
    | exact doInterface_frame _ _
    | exact doNo_frame _ _
    | exact doIP_frame _ _
    | exact doShutdown_frame _ _
    | simp

theorem processCommand_frame (sim : CiscoDeviceSimulator) (line : String) :
    (processCommand sim line).2 = CmdOutcome.ok ∨ (processCommand sim line).1 = sim := by
  unfold processCommand
  repeat' split
  all_goals first
    | exact doHelp_frame _ _
    | exact dispatchCommand_frame _ _ _
    | simp

/-- C4: if processing a line returns an error, the device configuration
(hostname, all interface states, the interface set) is unchanged — every
handler performs its mutations only after all validation passes, so a failed
line never partially mutates `runningConfig` (in fact no field of the state
changes). -/
theorem failed_line_leaves_config_unchanged (sim : CiscoDeviceSimulator) (line : String)
    (e : GoError) (h : (processCommand sim line).2 = CmdOutcome.err e) :
    (processCommand sim line).1.runningConfig = sim.runningConfig := by
  rcases processCommand_frame sim line with hok | hst
  · rw [hok] at h
    cases h
  · rw [hst]

/-- Witness for `failed_line_leaves_config_unchanged`: an unknown command in
the initial state errors and leaves the configuration untouched. -/
theorem failed_line_leaves_config_unchanged_w :
    (processCommand simRouter "xyz").1.runningConfig = simRouter.runningConfig :=
  failed_line_leaves_config_unchanged simRouter "xyz" (GoError.invalidInput "xyz") (by decide)

theorem invariant_of_interfaces_eq (t s : CiscoDeviceSimulator)
    (he : t.runningConfig.Interfaces = s.runningConfig.Interfaces)
    (h : simInvariant s) : simInvariant t := by
  intro n ic hn
  exact h n ic (he ▸ hn)

theorem setIntf_invariant {sim : CiscoDeviceSimulator} {name : String}
    {ic : InterfaceConfig} (h : simInvariant sim) (hic : intfInvariant ic) :
    simInvariant (setIntf sim name ic) := by
  intro n ic' hn
  by_cases he : n = name
  · subst he
    simp only [setIntf, if_pos rfl] at hn
    cases hn
    exact hic
  · simp only [setIntf, if_neg he] at hn
    exact h n ic' hn

theorem doInterface_invariant (sim : CiscoDeviceSimulator) (args : List String)
    (h : simInvariant sim) : simInvariant (doInterface sim args).1 := by
  unfold doInterface
  dsimp only
  repeat' split
  all_goals try exact h
  all_goals first
    | exact invariant_of_interfaces_eq _ sim rfl h
    | exact invariant_of_interfaces_eq _ (setIntf sim _ _) rfl
        (setIntf_invariant h ⟨fun _ => rfl, fun hu _ => absurd hu (by decide),
          fun hu _ => absurd hu (by decide)⟩)

theorem doIP_invariant (sim : CiscoDeviceSimulator) (args : List String)
    (h : simInvariant sim) : simInvariant (doIP sim args).1 := by
  unfold doIP
  repeat' split
  all_goals try exact h
  all_goals rename_i hipv hmaskv opt ic heq hadm
  all_goals have hinv := h _ _ heq
  all_goals refine setIntf_invariant h ?_
  · refine ⟨fun hd => absurd (hadm.symm.trans hd) (by decide), fun _ _ => rfl, fun _ he => ?_⟩
    dsimp only at he
    rw [he] at hipv
    exact absurd (by decide) hipv
  · exact ⟨fun hd => hinv.1 hd, fun hu _ => absurd hu hadm, fun hu _ => absurd hu hadm⟩

theorem doShutdown_invariant (sim : CiscoDeviceSimulator) (args : List String)
    (h : simInvariant sim) : simInvariant (doShutdown sim args).1 := by
  unfold doShutdown
  repeat' split
  all_goals try exact h
  all_goals refine setIntf_invariant h ?_
  all_goals exact ⟨fun _ => rfl,
    fun hu _ => absurd (show ("down" : String) = "up" from hu) (by decide),
    fun hu _ => absurd (show ("down" : String) = "up" from hu) (by decide)⟩

theorem noShutdown_invariant (sim : CiscoDeviceSimulator) (args : List String)
    (h : simInvariant sim) : simInvariant (noShutdown sim args).1 := by
  unfold noShutdown
  repeat' split
  all_goals try exact h
  all_goals rename_i hcond
  all_goals refine setIntf_invariant h ?_
  · exact ⟨fun hd => absurd (show ("up" : String) = "down" from hd) (by decide),
      fun _ _ => rfl, fun _ he => absurd he hcond⟩
  · exact ⟨fun hd => absurd (show ("up" : String) = "down" from hd) (by decide),
      fun _ hne => absurd hne hcond, fun _ _ => rfl⟩

theorem noIPAddress_invariant (sim : CiscoDeviceSimulator) (args : List String)
    (h : simInvariant sim) : simInvariant (noIPAddress sim args).1 := by
  unfold noIPAddress
  repeat' split
  all_goals try exact h
  all_goals rename_i opt ic heq hadm
  all_goals have hinv := h _ _ heq
  all_goals refine setIntf_invariant h ?_
  · exact ⟨fun hd => absurd (hadm.symm.trans hd) (by decide),
      fun _ hne => absurd rfl hne, fun _ _ => rfl⟩
  · exact ⟨fun hd => hinv.1 hd, fun hu _ => absurd hu hadm, fun hu _ => absurd hu hadm⟩

theorem execNoSub_invariant (sim : CiscoDeviceSimulator) (c : String)
    (subArgs : List String) (h : simInvariant sim) :
    simInvariant (execNoSub sim c subArgs).1 := by
  unfold execNoSub
  repeat' split
  all_goals first
    | exact noShutdown_invariant _ _ h
    | exact noIPAddress_invariant _ _ h
    | exact h

theorem doNo_invariant (sim : CiscoDeviceSimulator) (args : List String)
    (h : simInvariant sim) : simInvariant (doNo sim args).1 := by
  unfold doNo
  dsimp only
  repeat' split
  all_goals first
    | exact execNoSub_invariant _ _ _ h
    | exact h

theorem doHostname_invariant (sim : CiscoDeviceSimulator) (args : List String)
    (h : simInvariant sim) : simInvariant (doHostname sim args).1 := by
  unfold doHostname
  repeat' split
  all_goals exact h

theorem doExitQuit_config (sim : CiscoDeviceSimulator) (args : List String) :
    (doExitQuit sim args).1.runningConfig = sim.runningConfig := by
  unfold doExitQuit; split <;> rfl

theorem doExitMode_config (sim : CiscoDeviceSimulator) (args : List String) :
    (doExitMode sim args).1.runningConfig = sim.runningConfig := by
  unfold doExitMode; split <;> rfl

theorem doEnd_config (sim : CiscoDeviceSimulator) (args : List String) :
    (doEnd sim args).1.runningConfig = sim.runningConfig := by
  unfold doEnd; split <;> rfl

theorem doConfigure_config (sim : CiscoDeviceSimulator) (args : List String) :
    (doConfigure sim args).1.runningConfig = sim.runningConfig := by
  unfold doConfigure; repeat' split
  all_goals rfl

theorem showVersion_state (sim : CiscoDeviceSimulator) (args : List String) :
    (showVersion sim args).1 = sim := by
  unfold showVersion; split <;> rfl

theorem showRunningConfig_state (sim : CiscoDeviceSimulator) (args : List String) :
    (showRunningConfig sim args).1 = sim := by
  unfold showRunningConfig; split <;> rfl

theorem showIPInterfaceBrief_state (sim : CiscoDeviceSimulator) (args : List String) :
    (showIPInterfaceBrief sim args).1 = sim := by
  unfold showIPInterfaceBrief; split <;> rfl

theorem showHistoryCmd_state (sim : CiscoDeviceSimulator) (args : List String) :
    (showHistoryCmd sim args).1 = sim := by
  unfold showHistoryCmd; split <;> rfl

theorem execShowSub_state (sim : CiscoDeviceSimulator) (c : String)
    (subArgs : List String) : (execShowSub sim c subArgs).1 = sim := by
  unfold execShowSub
  repeat' split
  all_goals first
    | exact showVersion_state _ _
    | exact showRunningConfig_state _ _
    | exact showIPInterfaceBrief_state _ _
    | exact showHistoryCmd_state _ _
    | rfl

theorem doShow_state (sim : CiscoDeviceSimulator) (args : List String) :
    (doShow sim args).1 = sim := by
  unfold doShow
  dsimp only
  repeat' split
  all_goals first
    | exact execShowSub_state _ _ _
    | rfl

theorem dispatchCommand_invariant (sim : CiscoDeviceSimulator) (name : String)
    (args : List String) (h : simInvariant sim) :
    simInvariant (dispatchCommand sim name args).1 := by
  unfold dispatchCommand
  repeat' split
  all_goals first
    | exact doInterface_invariant _ _ h
    | exact doIP_invariant _ _ h
    | exact doShutdown_invariant _ _ h
    | exact doNo_invariant _ _ h
    | exact doHostname_invariant _ _ h
    | exact invariant_of_interfaces_eq _ sim
        (congrArg RunningConfig.Interfaces (doExitQuit_config sim args)) h
    | exact invariant_of_interfaces_eq _ sim
        (congrArg RunningConfig.Interfaces (doEnd_config sim args)) h
    | exact invariant_of_interfaces_eq _ sim
        (congrArg RunningConfig.Interfaces (doConfigure_config sim args)) h
    | exact invariant_of_interfaces_eq _ sim
        (congrArg RunningConfig.Interfaces
          (congrArg CiscoDeviceSimulator.runningConfig (doShow_state sim args))) h
    | exact invariant_of_interfaces_eq _ sim
        (congrArg RunningConfig.Interfaces
          (congrArg CiscoDeviceSimulator.runningConfig (showHistoryCmd_state sim args))) h
    | exact invariant_of_interfaces_eq _ sim rfl h

/-- C2: the `InterfaceState` invariant holds after every handler call —
processing any line in any state whose configuration satisfies it yields a
state whose configuration still satisfies it (covering the interface created
by `interface` and the mutations of `ip address`, `shutdown`, `no shutdown`
and `no ip address`). -/
theorem interface_invariant_preserved (sim : CiscoDeviceSimulator) (line : String)
    (h : simInvariant sim) : simInvariant (processCommand sim line).1 := by
  unfold processCommand
  repeat' split
  all_goals first
    | exact dispatchCommand_invariant _ _ _ h
    | exact h

/-- Witness for `interface_invariant_preserved`: the invariant holds after
the session `enable`, `configure terminal`, `interface g0/0`, `shutdown`,
applied line by line from the invariant-satisfying initial state. -/
theorem interface_invariant_preserved_w :
    simInvariant (processCommand simIf "shutdown").1 :=
  interface_invariant_preserved simIf "shutdown"
    (interface_invariant_preserved simGlobal "interface g0/0"
      (interface_invariant_preserved simPriv "configure terminal"
        (interface_invariant_preserved simRouter "enable"
          (fun _ _ hn => nomatch hn))))

theorem keyLexLe_refl (k : Nat × Nat × Nat) : keyLexLe k k := by
  unfold keyLexLe; omega

/-- The non-strict order realized by `sort.SliceStable` under `goIntfLess`
is the lexicographic order on sort keys. -/
theorem goIntfLe_iff (a b : String) :
    goIntfLe a b ↔ keyLexLe (sortInterfaceKey a) (sortInterfaceKey b) := by
  unfold goIntfLe goIntfLess keyLexLe
  rcases sortInterfaceKey a with ⟨ta, sa, pa⟩
  rcases sortInterfaceKey b with ⟨tb, sb, pb⟩
  dsimp only
  split_ifs <;> simp_all <;> omega

instance : IsTotal String goIntfLe :=
  ⟨fun a b => by
    rw [goIntfLe_iff, goIntfLe_iff]
    unfold keyLexLe
    omega⟩

instance : IsTrans String goIntfLe :=
  ⟨fun a b c hab hbc => by
    rw [goIntfLe_iff] at hab hbc ⊢
    unfold keyLexLe at hab hbc ⊢
    omega⟩

/-- Inserting `a` into `l` commutes with filtering by an exact sort key:
every element `a` jumps over is strictly below it, so it shares no key. -/
theorem filter_key_orderedInsert (k : Nat × Nat × Nat) (a : String) (l : List String) :
    (List.orderedInsert goIntfLe a l).filter (fun n => decide (sortInterfaceKey n = k)) =
      (a :: l).filter (fun n => decide (sortInterfaceKey n = k)) := by
  induction l with
  | nil => rfl
  | cons b l ih =>
    by_cases hle : goIntfLe a b
    · simp only [List.orderedInsert, if_pos hle]
    · have hne : sortInterfaceKey a ≠ sortInterfaceKey b := by
        intro he
        exact hle ((goIntfLe_iff a b).mpr
          (by rw [he]; exact keyLexLe_refl _))
      simp only [List.orderedInsert, if_neg hle, List.filter_cons]
      by_cases ha : sortInterfaceKey a = k
      · by_cases hb : sortInterfaceKey b = k
        · exact absurd (ha.trans hb.symm) hne
        · simp only [ha, hb, decide_True, decide_False, ih, List.filter_cons,
            if_true, if_false]
          simp [hb]
      · by_cases hb : sortInterfaceKey b = k
        · simp only [ha, hb, ih, List.filter_cons]
          simp [ha, hb]
        · simp only [ha, hb, ih, List.filter_cons]
          simp [ha, hb]

/-- Stability of the display sort: filtering the sorted list by any exact
sort key gives the same subsequence as filtering the input. -/
theorem filter_key_insertionSort (k : Nat × Nat × Nat) (l : List String) :
    (List.insertionSort goIntfLe l).filter (fun n => decide (sortInterfaceKey n = k)) =
      l.filter (fun n => decide (sortInterfaceKey n = k)) := by
  induction l with
  | nil => rfl
  | cons a l ih =>
    simp only [List.insertionSort]
    rw [filter_key_orderedInsert]
    simp only [List.filter_cons, ih]

/-- C9: `show running-config` and `show ip interface brief` list interfaces
in the order of the key (type weight, slot, port), ascending: the displayed
order is key-sorted, a permutation of the configured names, stable (elements
of equal key keep their input order), identical for the two commands; and the
key weights order FastEthernet (1) < GigabitEthernet (2) <
TenGigabitEthernet (3) < other matching types (99) < non-matching names
(999, which also carry no slot/port and are therefore mutually tied, hence
kept in input order). -/
theorem show_interface_order_sorted_stable :
    (∀ names : List String, (showRunningConfigOrder names).Pairwise
      (fun a b => keyLexLe (sortInterfaceKey a) (sortInterfaceKey b))) ∧
    (∀ names : List String, (showRunningConfigOrder names).Perm names) ∧
    (∀ (names : List String) (k : Nat × Nat × Nat),
      (showRunningConfigOrder names).filter (fun n => decide (sortInterfaceKey n = k)) =
        names.filter (fun n => decide (sortInterfaceKey n = k))) ∧
    (∀ names : List String, showIPInterfaceBriefOrder names = showRunningConfigOrder names) ∧
    sortInterfaceKey "FastEthernet0/1" = (1, 0, 1) ∧
    sortInterfaceKey "GigabitEthernet0/0" = (2, 0, 0) ∧
    sortInterfaceKey "TenGigabitEthernet1/2" = (3, 1, 2) ∧
    sortInterfaceKey "Ethernet3/4" = (99, 3, 4) ∧
    sortInterfaceKey "tunnel" = (999, 0, 0) := by
  refine ⟨?_, ?_, ?_, fun _ => rfl, by decide, by decide, by decide, by decide, by decide⟩
  · intro names
    exact (List.sorted_insertionSort goIntfLe names).imp
      (fun hab => (goIntfLe_iff _ _).mp hab)
  · intro names
    exact List.perm_insertionSort goIntfLe names
  · intro names k
    exact filter_key_insertionSort k names

end CiscoSim
